import Mathlib

/-!
Verification of the schedule-assembly core of `preferencias.py`.

The embedding below translates the algorithmic core of the source file:
times of day are minutes after midnight (`Nat`), weekdays are the strings the
source carries around, and the pandas rows are `Disciplina` records whose
derived columns (`TURNOS`, `DIAS`) are recomputed from `horarios` exactly as
the source recomputes them from `horarios_obj`.
-/

/-- A weekday time slot, as produced by `parse_horarios`: the `dia` string and
the `inicio`/`fim` times (minutes after midnight). -/
structure Horario where
  dia : String
  inicio : Nat
  fim : Nat
deriving DecidableEq

/-- One row of the candidate table: identifier, display fields and the parsed
slots (`horarios_obj`).  The derived columns `TURNOS`/`DIAS` of the source are
recomputed from `horarios` on demand, as the source does with
`list(set(get_turno(h) for h in horarios))` and `list(set(h['dia'] ...))`. -/
structure Disciplina where
  row_id : String
  disciplina : String
  curso : String
  turma : String
  horarios : List Horario
deriving DecidableEq

/-- The source's `TURNOS` dict keys plus the fallback value `"Indefinido"`. -/
inductive Turno where
  | Manha
  | Tarde
  | Noite
  | Indefinido
deriving DecidableEq

/-- `get_turno`: first shift whose fixed clock range contains the slot's start
time.  Ranges from the `TURNOS` constant: Manhã 07:00-12:00, Tarde
12:01-18:00, Noite 18:01-23:00 (in minutes: 420-720, 721-1080, 1081-1380).
Only `inicio` is inspected, as in the source. -/
def get_turno (h : Horario) : Turno :=
  if 420 ≤ h.inicio ∧ h.inicio ≤ 720 then Turno.Manha
  else if 721 ≤ h.inicio ∧ h.inicio ≤ 1080 then Turno.Tarde
  else if 1081 ≤ h.inicio ∧ h.inicio ≤ 1380 then Turno.Noite
  else Turno.Indefinido

/-- The pairwise test applied inside `check_conflito`'s loop: skip pairs on
different days, otherwise `h1['inicio'] < h2['fim'] and h2['inicio'] < h1['fim']`. -/
def overlaps (h1 h2 : Horario) : Bool :=
  h1.dia == h2.dia && decide (h1.inicio < h2.fim) && decide (h2.inicio < h1.fim)

/-- An element of `todos_horarios`: a flattened slot tagged with the owning
row's `DISCIPLINA` and `TURMA` (the record appended in the flattening loop). -/
structure Entrada where
  disciplina : String
  turma : String
  h : Horario
deriving DecidableEq

/-- All unordered pairs of a list, in the order `itertools.combinations(l, 2)`
produces them. -/
def listPairs {α : Type} : List α → List (α × α)
  | [] => []
  | x :: xs => (xs.map (fun y => (x, y))) ++ listPairs xs

/-- The `todos_horarios` list built by `check_conflito`: every row flattened
into its slots, tagged with the row's identity, in row order. -/
def todos_horarios (ds : List Disciplina) : List Entrada :=
  ds.flatMap (fun d => d.horarios.map (fun h => Entrada.mk d.disciplina d.turma h))

/-- `check_conflito`: `(False, [])` when fewer than 2 rows are selected
(`len(disciplinas_selecionadas) < 2`); otherwise every unordered pair of
flattened slots is tested with `overlaps` and the overlapping pairs are
collected.  The source formats each conflict as a tuple of strings; the
returned pair of `Entrada`s carries the same data unformatted. -/
def check_conflito (ds : List Disciplina) : Bool × List (Entrada × Entrada) :=
  if ds.length < 2 then (false, [])
  else
    let conflitos := (listPairs (todos_horarios ds)).filter (fun p => overlaps p.1.h p.2.h)
    (decide (0 < conflitos.length), conflitos)

/-- `dias_totais_da_grade`: the number of distinct days over all rows of a
combination (union of the derived `DIAS` columns). -/
def dias_totais_da_grade (ds : List Disciplina) : Nat :=
  (ds.flatMap (fun d => d.horarios.map (fun h => h.dia))).toFinset.card

/-- `turnos_da_grade`: the set of shifts over all rows of a combination.  The
source skips falsy entries (`if t:`), but `get_turno` only returns nonempty
strings, so nothing is ever skipped. -/
def turnos_da_grade (ds : List Disciplina) : Finset Turno :=
  (ds.flatMap (fun d => d.horarios.map get_turno)).toFinset

/-- `is_turno_set_permitido`: only the two consecutive-shift sets pass. -/
def is_turno_set_permitido (s : Finset Turno) : Bool :=
  decide (s = {Turno.Manha, Turno.Tarde}) || decide (s = {Turno.Tarde, Turno.Noite})

/-- `alvo_qtd_dias in {2, 3, 4}` where `none` models the `"Qualquer"` choice
(respectively Python's `None`). -/
def alvoIn234 (a : Option Nat) : Bool :=
  a == some 2 || a == some 3 || a == some 4

/-- The `extras` term of `score_combo`: group rows by `(CURSO, DISCIPLINA)`,
count distinct `TURMA` values per group (`nunique`), and sum `count - 1` over
the groups with more than one distinct value (`(grp[grp > 1] - 1).sum()`). -/
def extras_mesma_disciplina (ds : List Disciplina) : Nat :=
  (((ds.map (fun d => (d.curso, d.disciplina))).dedup).map (fun k =>
    let n := ((ds.filter (fun d => decide ((d.curso, d.disciplina) = k))).map
      (fun d => d.turma)).dedup.length
    if 1 < n then n - 1 else 0)).sum

/-- `score_combo`: +1 per row whose `TURNOS` meets `turnos_pref` (only when
`turnos_pref` is nonempty, as the source guards with `if turnos_pref:`),
+2 when the requested day count is in `{2,3,4}` and is matched exactly,
plus the extra-same-course term. -/
def score_combo (ds : List Disciplina) (turnos_pref : List Turno)
    (alvo_qtd_dias : Option Nat) : Nat :=
  (if turnos_pref.isEmpty then 0
   else (ds.filter (fun d =>
     (d.horarios.map get_turno).any (fun t => decide (t ∈ turnos_pref)))).length)
  + (if alvoIn234 alvo_qtd_dias = true ∧ alvo_qtd_dias = some (dias_totais_da_grade ds)
     then 2 else 0)
  + extras_mesma_disciplina ds

/-- `_combo_ok`: reject on conflicts, then on a missed exact day-count request,
then on a non-permitted shift set; otherwise accept. -/
def combo_ok (alvo_qtd_dias : Option Nat) (ds : List Disciplina) : Bool :=
  if (check_conflito ds).1 = true then false
  else if alvoIn234 alvo_qtd_dias = true ∧ alvo_qtd_dias ≠ some (dias_totais_da_grade ds)
    then false
  else if is_turno_set_permitido (turnos_da_grade ds) = false then false
  else true


/-- Group labels assigned to fixed rows in step 3 (`grupos_rotulos`); anything
other than the three group labels falls into the `singles` bucket. -/
inductive Rotulo where
  | semGrupo
  | grupoA
  | grupoB
  | grupoC
deriving DecidableEq

/-- The buckets built at the top of the `gerar` block: `grupos["Grupo A"/"B"/"C"]`
and `singles`. -/
structure Buckets where
  a : Finset String
  b : Finset String
  c : Finset String
  singles : Finset String
deriving DecidableEq

/-- The bucket-filling loop over `mapa_grupos_fixas.items()`. -/
def buckets (mapa : List (String × Rotulo)) : Buckets :=
  mapa.foldl (fun bk e =>
    match e.2 with
    | Rotulo.grupoA => { bk with a := insert e.1 bk.a }
    | Rotulo.grupoB => { bk with b := insert e.1 bk.b }
    | Rotulo.grupoC => { bk with c := insert e.1 bk.c }
    | Rotulo.semGrupo => { bk with singles := insert e.1 bk.singles }) ⟨∅, ∅, ∅, ∅⟩

/-- The scenario list (`cenarios`) built in the `gerar` block.  The mandatory
assignment is the `mapa_grupos_fixas` items; `mapa = []` models an empty
`fixed_ids_set` (in the app the map's keys are exactly the fixed rows).
`combinar` is the `combinar_grupos_juntos` toggle, `singlesOb` the
`singles_sao_obrigatorias` flag. -/
def cenarios (mapa : List (String × Rotulo)) (combinar singlesOb : Bool) :
    List (Finset String) :=
  let bk := buckets mapa
  let nao_vazios := [bk.a, bk.b, bk.c].filter (fun s => decide (s ≠ ∅))
  if mapa ≠ [] then
    if combinar = true then
      let obrig := nao_vazios.foldl (fun x y => x ∪ y) ∅
      [if singlesOb then obrig ∪ bk.singles else obrig]
    else
      if nao_vazios ≠ [] then
        nao_vazios.map (fun g => if singlesOb then g ∪ bk.singles else g)
      else
        [if singlesOb then bk.singles else ∅]
  else [∅]

/-- `MAX_COMBINACOES`: the per-scenario safety cap. -/
def MAX_COMBINACOES : Nat := 100000

/-- Row used for out-of-range list access (never reached on the indices the
enumerator produces). -/
def dummyDisciplina : Disciplina := ⟨"", "", "", "", []⟩

/-- `id_to_idx`: the dict `{rid: idx for idx, rid in zip(base_df.index,
base_df["ROW_ID"])}` — on duplicate `ROW_ID`s the later row wins. -/
def id_to_idx (pool : List Disciplina) (rid : String) : Option Nat :=
  ((List.range pool.length).filter
    (fun i => (pool.getD i dummyDisciplina).row_id == rid)).getLast?

/-- `obrig_idx`: `{id_to_idx[r] for r in obrig_rids if r in id_to_idx}`. -/
def obrig_idx_of (pool : List Disciplina) (rids : Finset String) : Finset Nat :=
  rids.biUnion (fun r => (id_to_idx pool r).toFinset)

/-- `sorted(obrig_idx)` as a list of row indices (ascending, within range). -/
def obrig_list (pool : List Disciplina) (oi : Finset Nat) : List Nat :=
  (List.range pool.length).filter (fun i => decide (i ∈ oi))

/-- `resto`: the pool indices that are not mandatory, in order. -/
def resto_list (pool : List Disciplina) (oi : Finset Nat) : List Nat :=
  (List.range pool.length).filter (fun i => decide (i ∉ oi))

/-- `itertools.combinations(l, r)`: all `r`-subsets of `l`, in the lexicographic
order over positions that `itertools` produces. -/
def combs {α : Type} : Nat → List α → List (List α)
  | 0, _ => [[]]
  | _ + 1, [] => []
  | r + 1, x :: xs => ((combs r xs).map (fun t => x :: t)) ++ combs (r + 1) xs

/-- The sizes considered: `range(max(1, len(obrig_idx)), len(indices) + 1)` when
the target is 0 ("tamanhos variados"), else exactly the target. -/
def tamanhos (alvo n nobrig : Nat) : List Nat :=
  if alvo = 0 then List.range' (max 1 nobrig) (n + 1 - max 1 nobrig) else [alvo]

/-- The candidates generated for one size `k`: skipped when `k < len(obrig_idx)`,
exactly the mandatory rows when `k == len(obrig_idx)`, else `sorted(obrig_idx)`
prefixed to each `k - len(obrig_idx)`-subset of `resto`. -/
def combos_para_k (obrig resto : List Nat) (k : Nat) : List (List Nat) :=
  if k < obrig.length then []
  else if obrig.length = k then [obrig]
  else (combs (k - obrig.length) resto).map (fun extra => obrig ++ extra)

/-- The full candidate stream of one scenario, in generation order. -/
def todas_combos (pool : List Disciplina) (oi : Finset Nat) (alvo : Nat) :
    List (List Nat) :=
  (tamanhos alvo pool.length (obrig_list pool oi).length).flatMap
    (combos_para_k (obrig_list pool oi) (resto_list pool oi))

/-- The enumeration loop body: validate each generated candidate, append the
valid ones to `todas_validas`, bump `combinacoes_geradas`, and stop as soon as
the counter reaches the cap (the counter is checked right after each
increment, exactly as in the source). -/
def gera_loop (cap : Nat) (ok : List Nat → Bool) :
    List (List Nat) → Nat → List (List Nat) → (List (List Nat) × Nat)
  | [], geradas, validas => (validas, geradas)
  | c :: cs, geradas, validas =>
    let validas' := if ok c then validas ++ [c] else validas
    let geradas' := geradas + 1
    if cap ≤ geradas' then (validas', geradas')
    else gera_loop cap ok cs geradas' validas'

/-- Look the rows of a candidate up in the pool (`base_df.loc[combo_idx]`). -/
def combo_secs (pool : List Disciplina) (c : List Nat) : List Disciplina :=
  c.map (fun i => pool.getD i dummyDisciplina)

/-- What one scenario produces: `todas_validas` (later sorted) and the value of
`combinacoes_geradas`. -/
structure CenarioResultado where
  validas : List (List Nat)
  geradas : Nat
deriving DecidableEq

/-- One scenario of the `gerar` block up to (but not including) the sort: the
size-conflict guard (`len(obrig_idx) > alvo_num_disciplinas` skips the
scenario), then the capped enumeration over all considered sizes. -/
def gerar_cenario (cap : Nat) (pool : List Disciplina) (oi : Finset Nat)
    (alvo : Nat) (alvoD : Option Nat) : CenarioResultado :=
  if 0 < alvo ∧ alvo < (obrig_list pool oi).length then ⟨[], 0⟩
  else
    let p := gera_loop cap (fun c => combo_ok alvoD (combo_secs pool c))
      (todas_combos pool oi alvo) 0 []
    ⟨p.1, p.2⟩

/-- The ranking key of a candidate: `score_combo` of its rows (the score is
called with `None` for the day target when the radio is `"Qualquer"`, which the
`Option` already models). -/
def score_key (pool : List Disciplina) (pref : List Turno) (alvoD : Option Nat)
    (c : List Nat) : Nat :=
  score_combo (combo_secs pool c) pref alvoD

/-- Stable descending insertion: place `a` before the first element whose key
is not larger, so earlier-generated candidates win ties. -/
def insDesc {α : Type} (key : α → Nat) (a : α) : List α → List α
  | [] => [a]
  | b :: bs => if key b ≤ key a then a :: b :: bs else b :: insDesc key a bs

/-- `sorted(..., key=..., reverse=True)`: Python's sort is stable, so the
result is characterised as the stable descending sort by key. -/
def sortDesc {α : Type} (key : α → Nat) : List α → List α
  | [] => []
  | a :: as_ => insDesc key a (sortDesc key as_)

/-- One scenario of the `gerar` block including `todas_validas_sorted`. -/
def cenario_sorted (cap : Nat) (pool : List Disciplina) (oi : Finset Nat)
    (alvo : Nat) (alvoD : Option Nat) (pref : List Turno) : CenarioResultado :=
  let r := gerar_cenario cap pool oi alvo alvoD
  ⟨sortDesc (score_key pool pref alvoD) r.validas, r.geradas⟩

/-- The whole `gerar` block: build the scenarios, then run each one
independently against the pool (`base_df`, the selected rows). -/
def gerar (pool : List Disciplina) (mapa : List (String × Rotulo))
    (combinar singlesOb : Bool) (alvo : Nat) (alvoD : Option Nat)
    (pref : List Turno) : List CenarioResultado :=
  (cenarios mapa combinar singlesOb).map (fun rids =>
    cenario_sorted MAX_COMBINACOES pool (obrig_idx_of pool rids) alvo alvoD pref)

-- concrete sections reused by witnesses below
def dManha : Disciplina := ⟨"a", "A", "c", "1", [⟨"seg", 480, 600⟩]⟩
def dTarde : Disciplina := ⟨"b", "B", "c", "1", [⟨"ter", 800, 900⟩]⟩
def dAuto : Disciplina := ⟨"x", "X", "c", "1", [⟨"seg", 480, 600⟩, ⟨"seg", 540, 660⟩]⟩
def dIndef : Disciplina := ⟨"u", "U", "c", "1", [⟨"qui", 200, 300⟩]⟩

example :
    gerar [dManha, dTarde] [] false false 2 none [] = [⟨[[0, 1]], 1⟩] := by decide
example :
    gerar [dManha, dTarde] [] false false 3 none [] = [⟨[], 0⟩] := by decide
example :
    cenarios [("x", Rotulo.grupoA), ("y", Rotulo.semGrupo)] false true
      = [{"x", "y"}] := by decide
example :
    cenarios [("x", Rotulo.grupoA), ("y", Rotulo.grupoB)] true false
      = [{"x", "y"}] := by decide
example :
    cenarios [("x", Rotulo.grupoA), ("y", Rotulo.grupoB)] false false
      = [{"x"}, {"y"}] := by decide
example :
    cenarios [("y", Rotulo.semGrupo)] false false = [(∅ : Finset String)] := by decide
example : combs 2 [0, 1, 2] = [[0, 1], [0, 2], [1, 2]] := rfl
example :
    gerar [dManha, dTarde] [] false false 0 none []
      = [⟨[[0, 1]], 3⟩] := by decide

-- quick sanity examples (concrete evaluation of the embedding)
example : get_turno ⟨"Segunda-feira", 480, 600⟩ = Turno.Manha := rfl
example : get_turno ⟨"Segunda-feira", 719, 780⟩ = Turno.Manha := rfl
example : get_turno ⟨"Segunda-feira", 1081, 1200⟩ = Turno.Noite := rfl
example : get_turno ⟨"Segunda-feira", 200, 300⟩ = Turno.Indefinido := rfl
example : overlaps ⟨"seg", 480, 600⟩ ⟨"seg", 540, 660⟩ = true := rfl
example : overlaps ⟨"seg", 480, 600⟩ ⟨"seg", 600, 660⟩ = false := rfl
example : overlaps ⟨"seg", 480, 600⟩ ⟨"ter", 540, 660⟩ = false := rfl
example :
    check_conflito [⟨"i", "d", "c", "t", [⟨"seg", 480, 600⟩, ⟨"seg", 540, 660⟩]⟩]
      = (false, []) := rfl
example :
    (check_conflito [⟨"i", "d", "c", "t", [⟨"seg", 480, 600⟩, ⟨"seg", 540, 660⟩]⟩,
      ⟨"j", "e", "c", "u", [⟨"qua", 480, 600⟩]⟩]).1 = true := rfl
example :
    is_turno_set_permitido {Turno.Manha, Turno.Tarde} = true := rfl
example :
    is_turno_set_permitido {Turno.Manha, Turno.Noite} = false := rfl
example :
    is_turno_set_permitido {Turno.Manha, Turno.Tarde, Turno.Noite} = false := rfl
example : is_turno_set_permitido {Turno.Tarde} = false := rfl

-- ------------------------------------------------------------------
-- helper lemmas
-- ------------------------------------------------------------------

theorem insDesc_perm {α : Type} (key : α → Nat) (a : α) :
    ∀ l : List α, (insDesc key a l).Perm (a :: l) := by
  intro l
  induction l with
  | nil => simp [insDesc]
  | cons b bs ih =>
    by_cases hb : key b ≤ key a
    · simp [insDesc, hb]
    · simp only [insDesc, if_neg hb]
      exact ((ih.cons b).trans (List.Perm.swap a b bs))

theorem sortDesc_perm {α : Type} (key : α → Nat) :
    ∀ l : List α, (sortDesc key l).Perm l := by
  intro l
  induction l with
  | nil => simp [sortDesc]
  | cons a as_ ih =>
    exact (insDesc_perm key a (sortDesc key as_)).trans (ih.cons a)

theorem mem_sortDesc {α : Type} (key : α → Nat) (l : List α) (c : α) :
    c ∈ sortDesc key l ↔ c ∈ l :=
  (sortDesc_perm key l).mem_iff

theorem insDesc_pairwise {α : Type} (key : α → Nat) (a : α) :
    ∀ l : List α, l.Pairwise (fun x y => key y ≤ key x) →
      (insDesc key a l).Pairwise (fun x y => key y ≤ key x) := by
  intro l
  induction l with
  | nil => intro _; simp [insDesc]
  | cons b bs ih =>
    intro hp
    rcases List.pairwise_cons.mp hp with ⟨hb1, hb2⟩
    by_cases hb : key b ≤ key a
    · simp only [insDesc, if_pos hb]
      refine List.pairwise_cons.mpr ⟨?_, hp⟩
      intro c hc
      rcases List.mem_cons.mp hc with rfl | hc
      · exact hb
      · exact Nat.le_trans (hb1 c hc) hb
    · simp only [insDesc, if_neg hb]
      refine List.pairwise_cons.mpr ⟨?_, ih hb2⟩
      intro c hc
      rcases List.mem_cons.mp ((insDesc_perm key a bs).mem_iff.mp hc) with rfl | hc
      · exact Nat.le_of_lt (Nat.not_le.mp hb)
      · exact hb1 c hc

theorem sortDesc_pairwise {α : Type} (key : α → Nat) :
    ∀ l : List α, (sortDesc key l).Pairwise (fun x y => key y ≤ key x) := by
  intro l
  induction l with
  | nil => simp [sortDesc]
  | cons a as_ ih => exact insDesc_pairwise key a _ ih

theorem filter_insDesc {α : Type} (key : α → Nat) (s : Nat) (a : α) :
    ∀ l : List α,
      (insDesc key a l).filter (fun c => decide (key c = s)) =
        if key a = s then a :: l.filter (fun c => decide (key c = s))
        else l.filter (fun c => decide (key c = s)) := by
  intro l
  induction l with
  | nil => by_cases ha : key a = s <;> simp [insDesc, List.filter_cons, ha]
  | cons b bs ih =>
    by_cases hb : key b ≤ key a
    · simp only [insDesc, if_pos hb]
      by_cases ha : key a = s <;> by_cases hbs : key b = s <;>
        simp [List.filter_cons, ha, hbs]
    · have hab : key a < key b := Nat.not_le.mp hb
      simp only [insDesc, if_neg hb]
      rcases eq_or_ne (key a) s with ha | ha
      · have hbs : key b ≠ s := fun hq => (Nat.ne_of_lt hab) (ha.trans hq.symm)
        simp [List.filter_cons, ha, hbs, ih]
      · by_cases hbs : key b = s <;> simp [List.filter_cons, ha, hbs, ih]

theorem sortDesc_filter {α : Type} (key : α → Nat) (s : Nat) :
    ∀ l : List α,
      (sortDesc key l).filter (fun c => decide (key c = s)) =
        l.filter (fun c => decide (key c = s)) := by
  intro l
  induction l with
  | nil => simp [sortDesc]
  | cons a as_ ih =>
    by_cases ha : key a = s <;>
      simp [sortDesc, filter_insDesc, ha, List.filter_cons, ih]

theorem gera_loop_validas_mem (cap : Nat) (ok : List Nat → Bool) :
    ∀ (l : List (List Nat)) (g : Nat) (v : List (List Nat)) (c : List Nat),
      c ∈ (gera_loop cap ok l g v).1 → c ∈ v ∨ c ∈ l := by
  intro l
  induction l with
  | nil => intro g v c hc; exact Or.inl hc
  | cons x xs ih =>
    intro g v c hc
    have hstep : ∀ d : List Nat, d ∈ (if ok x then v ++ [x] else v) → d ∈ v ∨ d = x := by
      intro d hd
      by_cases hx : ok x
      · rw [if_pos hx] at hd
        rcases List.mem_append.mp hd with hq | hq
        · exact Or.inl hq
        · exact Or.inr (List.mem_singleton.mp hq)
      · rw [if_neg hx] at hd
        exact Or.inl hd
    simp only [gera_loop] at hc
    by_cases hcap : cap ≤ g + 1
    · rw [if_pos hcap] at hc
      rcases hstep c hc with hq | hq
      · exact Or.inl hq
      · exact Or.inr (hq ▸ List.mem_cons_self x xs)
    · rw [if_neg hcap] at hc
      rcases ih (g + 1) _ c hc with hq | hq
      · rcases hstep c hq with h2 | h2
        · exact Or.inl h2
        · exact Or.inr (h2 ▸ List.mem_cons_self x xs)
      · exact Or.inr (List.mem_cons_of_mem x hq)

theorem gera_loop_validas_ok (cap : Nat) (ok : List Nat → Bool) :
    ∀ (l : List (List Nat)) (g : Nat) (v : List (List Nat)),
      (∀ c ∈ v, ok c = true) →
      ∀ c ∈ (gera_loop cap ok l g v).1, ok c = true := by
  intro l
  induction l with
  | nil => intro g v hv c hc; exact hv c hc
  | cons x xs ih =>
    intro g v hv c hc
    have hv' : ∀ c ∈ (if ok x then v ++ [x] else v), ok c = true := by
      intro c hc
      by_cases hx : ok x
      · simp only [if_pos hx, List.mem_append, List.mem_singleton] at hc
        rcases hc with h | h
        · exact hv c h
        · rw [h]; exact hx
      · exact hv c (by simpa [if_neg hx] using hc)
    simp only [gera_loop] at hc
    by_cases hcap : cap ≤ g + 1
    · rw [if_pos hcap] at hc
      exact hv' c hc
    · rw [if_neg hcap] at hc
      exact ih (g + 1) _ hv' c hc

theorem gera_loop_geradas_le (cap : Nat) (ok : List Nat → Bool) :
    ∀ (l : List (List Nat)) (g : Nat) (v : List (List Nat)),
      g < cap → (gera_loop cap ok l g v).2 ≤ cap := by
  intro l
  induction l with
  | nil => intro g v hg; exact Nat.le_of_lt hg
  | cons x xs ih =>
    intro g v hg
    simp only [gera_loop]
    by_cases hcap : cap ≤ g + 1
    · rw [if_pos hcap]
      exact Nat.succ_le_of_lt hg
    · rw [if_neg hcap]
      exact ih (g + 1) _ (Nat.not_le.mp hcap)

theorem combo_ok_of_permitido_false (alvoD : Option Nat) (ds : List Disciplina)
    (h : is_turno_set_permitido (turnos_da_grade ds) = false) :
    combo_ok alvoD ds = false := by
  simp [combo_ok, h]

theorem permitido_of_combo_ok (alvoD : Option Nat) (ds : List Disciplina)
    (h : combo_ok alvoD ds = true) :
    is_turno_set_permitido (turnos_da_grade ds) = true := by
  unfold combo_ok at h
  split at h
  · exact Bool.noConfusion h
  · split at h
    · exact Bool.noConfusion h
    · split at h
      · exact Bool.noConfusion h
      · rename_i hq
        simpa using hq

theorem validas_por_cenario_ok (cap : Nat) (pool : List Disciplina)
    (oi : Finset Nat) (alvo : Nat) (alvoD : Option Nat) (pref : List Turno)
    (c : List Nat) (hc : c ∈ (cenario_sorted cap pool oi alvo alvoD pref).validas) :
    combo_ok alvoD (combo_secs pool c) = true := by
  unfold cenario_sorted at hc
  rw [mem_sortDesc] at hc
  unfold gerar_cenario at hc
  split at hc
  · exact absurd hc (by simp)
  · exact gera_loop_validas_ok cap _ _ 0 [] (by intro c hq; exact absurd hq (by simp)) c hc

theorem validas_por_cenario_mem (cap : Nat) (pool : List Disciplina)
    (oi : Finset Nat) (alvo : Nat) (alvoD : Option Nat) (pref : List Turno)
    (c : List Nat) (hc : c ∈ (cenario_sorted cap pool oi alvo alvoD pref).validas) :
    c ∈ todas_combos pool oi alvo := by
  unfold cenario_sorted at hc
  rw [mem_sortDesc] at hc
  unfold gerar_cenario at hc
  split at hc
  · exact absurd hc (by simp)
  · rcases gera_loop_validas_mem cap _ _ 0 [] c hc with hq | hq
    · exact absurd hq (by simp)
    · exact hq

theorem combs_eq_nil {α : Type} :
    ∀ (r : Nat) (l : List α), l.length < r → combs r l = [] := by
  intro r l
  induction l generalizing r with
  | nil =>
    intro hr
    match r with
    | 0 => exact absurd hr (by simp)
    | r + 1 => rfl
  | cons x xs ih =>
    intro hr
    match r with
    | 0 => exact absurd hr (by simp)
    | r + 1 =>
      have h1 : xs.length < r := by simpa using hr
      have h2 : xs.length < r + 1 := Nat.lt_succ_of_lt h1
      simp [combs, ih r h1, ih (r + 1) h2]

-- ------------------------------------------------------------------
-- C4: the pairwise overlap predicate
-- ------------------------------------------------------------------

/-- C4.  The pairwise conflict test of `check_conflito` returns true iff the
two slots share the weekday and `start1 < end2` and `start2 < end1`; in
particular it is false across different weekdays and false for back-to-back
slots with `a.fim = b.inicio` (half-open semantics). -/
theorem C4_overlaps_characterisation (a b : Horario) :
    (overlaps a b = true ↔ a.dia = b.dia ∧ a.inicio < b.fim ∧ b.inicio < a.fim) ∧
    (a.dia ≠ b.dia → overlaps a b = false) ∧
    (a.fim = b.inicio → overlaps a b = false) := by
  refine ⟨?_, ?_, ?_⟩
  · simp [overlaps, and_assoc]
  · intro h
    simp [overlaps, h]
  · intro h
    simp [overlaps, h]

/-- Witness for C4 at concrete slots: different weekdays, and back-to-back
slots on the same weekday. -/
theorem C4_witness :
    overlaps ⟨"Segunda-feira", 480, 600⟩ ⟨"Terça-feira", 540, 660⟩ = false ∧
    overlaps ⟨"Segunda-feira", 480, 600⟩ ⟨"Segunda-feira", 600, 700⟩ = false :=
  ⟨(C4_overlaps_characterisation ⟨"Segunda-feira", 480, 600⟩ ⟨"Terça-feira", 540, 660⟩).2.1
      (by decide),
   (C4_overlaps_characterisation ⟨"Segunda-feira", 480, 600⟩ ⟨"Segunda-feira", 600, 700⟩).2.2
      rfl⟩

-- ------------------------------------------------------------------
-- C3: only the two consecutive-shift sets pass validation
-- ------------------------------------------------------------------

/-- C3.  A combination passes `_combo_ok` only if its covered shift set is
exactly {Manhã, Tarde} or exactly {Tarde, Noite}; any other shift set forces
rejection; and every combination in a scenario's result list passed
`_combo_ok`. -/
theorem C3_turno_set_rule :
    (∀ (alvoD : Option Nat) (ds : List Disciplina), combo_ok alvoD ds = true →
      turnos_da_grade ds = {Turno.Manha, Turno.Tarde} ∨
        turnos_da_grade ds = {Turno.Tarde, Turno.Noite}) ∧
    (∀ (alvoD : Option Nat) (ds : List Disciplina),
      turnos_da_grade ds ≠ {Turno.Manha, Turno.Tarde} →
      turnos_da_grade ds ≠ {Turno.Tarde, Turno.Noite} →
      combo_ok alvoD ds = false) ∧
    (∀ (cap : Nat) (pool : List Disciplina) (oi : Finset Nat) (alvo : Nat)
      (alvoD : Option Nat) (pref : List Turno) (c : List Nat),
      c ∈ (cenario_sorted cap pool oi alvo alvoD pref).validas →
      combo_ok alvoD (combo_secs pool c) = true) := by
  refine ⟨?_, ?_, ?_⟩
  · intro alvoD ds h
    have hp := permitido_of_combo_ok alvoD ds h
    simpa [is_turno_set_permitido] using hp
  · intro alvoD ds h1 h2
    apply combo_ok_of_permitido_false
    simp [is_turno_set_permitido, h1, h2]
  · intro cap pool oi alvo alvoD pref c hc
    exact validas_por_cenario_ok cap pool oi alvo alvoD pref c hc

/-- Witness for C3: a concrete accepted Morning+Afternoon pair, the rejection
of a Morning+Evening set, and a concrete result-list membership. -/
theorem C3_witness :
    (turnos_da_grade (combo_secs [dManha, dTarde] [0, 1]) = {Turno.Manha, Turno.Tarde} ∨
      turnos_da_grade (combo_secs [dManha, dTarde] [0, 1]) = {Turno.Tarde, Turno.Noite}) ∧
    combo_ok none [dManha, ⟨"n", "N", "c", "1", [⟨"sex", 1100, 1200⟩]⟩] = false ∧
    combo_ok none (combo_secs [dManha, dTarde] [0, 1]) = true :=
  ⟨C3_turno_set_rule.1 none (combo_secs [dManha, dTarde] [0, 1])
      (C3_turno_set_rule.2.2 MAX_COMBINACOES [dManha, dTarde] ∅ 2 none [] [0, 1] (by decide)),
   C3_turno_set_rule.2.1 none [dManha, ⟨"n", "N", "c", "1", [⟨"sex", 1100, 1200⟩]⟩]
      (by decide) (by decide),
   C3_turno_set_rule.2.2 MAX_COMBINACOES [dManha, dTarde] ∅ 2 none [] [0, 1] (by decide)⟩

-- ------------------------------------------------------------------
-- C10: Undefined-shift sections never survive validation
-- ------------------------------------------------------------------

/-- C10.  A combination containing a section with a slot classified as
`Indefinido` is always rejected by `_combo_ok` (its shift set contains
`Indefinido`, which no permitted set does), so no combination in any
scenario's result list contains such a section. -/
theorem C10_indefinido_rejeitado :
    (∀ (alvoD : Option Nat) (ds : List Disciplina),
      (∃ d ∈ ds, ∃ h ∈ d.horarios, get_turno h = Turno.Indefinido) →
      combo_ok alvoD ds = false) ∧
    (∀ (cap : Nat) (pool : List Disciplina) (oi : Finset Nat) (alvo : Nat)
      (alvoD : Option Nat) (pref : List Turno) (c : List Nat),
      c ∈ (cenario_sorted cap pool oi alvo alvoD pref).validas →
      ∀ d ∈ combo_secs pool c, ∀ h ∈ d.horarios, get_turno h ≠ Turno.Indefinido) := by
  have core : ∀ (alvoD : Option Nat) (ds : List Disciplina),
      (∃ d ∈ ds, ∃ h ∈ d.horarios, get_turno h = Turno.Indefinido) →
      combo_ok alvoD ds = false := by
    intro alvoD ds hex
    rcases hex with ⟨d, hd, h, hh, ht⟩
    have hmem : Turno.Indefinido ∈ turnos_da_grade ds := by
      unfold turnos_da_grade
      rw [List.mem_toFinset, List.mem_flatMap]
      exact ⟨d, hd, List.mem_map.mpr ⟨h, hh, ht⟩⟩
    apply combo_ok_of_permitido_false
    have h1 : turnos_da_grade ds ≠ {Turno.Manha, Turno.Tarde} := by
      intro heq
      rw [heq] at hmem
      exact absurd hmem (by decide)
    have h2 : turnos_da_grade ds ≠ {Turno.Tarde, Turno.Noite} := by
      intro heq
      rw [heq] at hmem
      exact absurd hmem (by decide)
    simp [is_turno_set_permitido, h1, h2]
  refine ⟨core, ?_⟩
  intro cap pool oi alvo alvoD pref c hc d hd h hh ht
  have hok := validas_por_cenario_ok cap pool oi alvo alvoD pref c hc
  have hko := core alvoD (combo_secs pool c) ⟨d, hd, h, hh, ht⟩
  rw [hok] at hko
  exact Bool.noConfusion hko

/-- Witness for C10: a concrete section starting at 03:20 (no shift contains
it) makes any combination containing it invalid. -/
theorem C10_witness :
    combo_ok none [dManha, dIndef] = false :=
  C10_indefinido_rejeitado.1 none [dManha, dIndef]
    ⟨dIndef, by decide, ⟨"qui", 200, 300⟩, by decide, by decide⟩

-- ------------------------------------------------------------------
-- C1: the conflict detector's degenerate case and pair coverage
-- ------------------------------------------------------------------

theorem pair_mem_listPairs {α : Type} (a b : α) :
    ∀ l : List α, [a, b].Sublist l → (a, b) ∈ listPairs l := by
  intro l
  induction l with
  | nil => intro h; exact absurd (List.sublist_nil.mp h) (by simp)
  | cons x xs ih =>
    intro h
    cases h with
    | cons _ h2 =>
      exact List.mem_append_right _ (ih h2)
    | cons₂ _ h2 =>
      refine List.mem_append_left _ ?_
      exact List.mem_map.mpr ⟨b, List.singleton_sublist.mp h2, rfl⟩

theorem sublist_todos_horarios (ds : List Disciplina) (d : Disciplina)
    (hd : d ∈ ds) (h1 h2 : Horario) (hsub : [h1, h2].Sublist d.horarios) :
    [Entrada.mk d.disciplina d.turma h1, Entrada.mk d.disciplina d.turma h2].Sublist
      (todos_horarios ds) := by
  have hmap : [Entrada.mk d.disciplina d.turma h1, Entrada.mk d.disciplina d.turma h2].Sublist
      (d.horarios.map (fun h => Entrada.mk d.disciplina d.turma h)) :=
    hsub.map (fun h => Entrada.mk d.disciplina d.turma h)
  have hblock : (d.horarios.map (fun h => Entrada.mk d.disciplina d.turma h)) ∈
      ds.map (fun d => d.horarios.map (fun h => Entrada.mk d.disciplina d.turma h)) :=
    List.mem_map.mpr ⟨d, hd, rfl⟩
  exact hmap.trans (List.sublist_flatten_of_mem hblock)

theorem check_conflito_fst_iff (ds : List Disciplina) (hlen : 2 ≤ ds.length) :
    (check_conflito ds).1 = true ↔
      ∃ p ∈ listPairs (todos_horarios ds), overlaps p.1.h p.2.h = true := by
  have hnot : ¬(ds.length < 2) := Nat.not_lt.mpr hlen
  unfold check_conflito
  rw [if_neg hnot]
  simp only [decide_eq_true_eq]
  constructor
  · intro h
    rcases List.exists_mem_of_length_pos h with ⟨p, hp⟩
    rcases List.mem_filter.mp hp with ⟨hp1, hp2⟩
    exact ⟨p, hp1, hp2⟩
  · intro ⟨p, hp, hov⟩
    exact List.length_pos_of_mem (List.mem_filter.mpr ⟨hp, hov⟩)

/-- C1 counterexample.  The claim says the degenerate `(false, [])` case is
"fewer than 2 total intervals" and that a single section whose two same-day
intervals overlap is reported as a conflict.  `dAuto` is one section with two
overlapping Monday intervals: it has 2 intervals and they overlap, yet
`check_conflito` returns `(false, [])`, because the source's guard is
`len(disciplinas_selecionadas) < 2` — fewer than 2 sections, not intervals. -/
theorem C1_counterexample :
    check_conflito [dAuto] = (false, []) ∧
    2 ≤ dAuto.horarios.length ∧
    overlaps (dAuto.horarios.getD 0 ⟨"", 0, 0⟩) (dAuto.horarios.getD 1 ⟨"", 0, 0⟩) = true := by
  decide

/-- C1 (amended).  `check_conflito` returns `(false, [])` whenever fewer than
2 sections are given (regardless of their interval count); given at least 2
sections it tests every unordered pair of flattened intervals — including
pairs from the same section — and reports a conflict iff some pair overlaps. -/
theorem C1_check_conflito_amended (ds : List Disciplina) :
    (ds.length < 2 → check_conflito ds = (false, [])) ∧
    (2 ≤ ds.length →
      (check_conflito ds).2 =
        (listPairs (todos_horarios ds)).filter (fun p => overlaps p.1.h p.2.h) ∧
      ((check_conflito ds).1 = true ↔
        ∃ p ∈ listPairs (todos_horarios ds), overlaps p.1.h p.2.h = true)) ∧
    (2 ≤ ds.length → ∀ d ∈ ds, ∀ h1 h2 : Horario, [h1, h2].Sublist d.horarios →
      overlaps h1 h2 = true → (check_conflito ds).1 = true) := by
  refine ⟨?_, ?_, ?_⟩
  · intro h
    simp [check_conflito, h]
  · intro h
    have hnot : ¬(ds.length < 2) := Nat.not_lt.mpr h
    refine ⟨?_, check_conflito_fst_iff ds h⟩
    unfold check_conflito
    rw [if_neg hnot]
  · intro hlen d hd h1 h2 hsub hov
    refine (check_conflito_fst_iff ds hlen).mpr ?_
    refine ⟨(Entrada.mk d.disciplina d.turma h1, Entrada.mk d.disciplina d.turma h2), ?_, hov⟩
    exact pair_mem_listPairs _ _ _ (sublist_todos_horarios ds d hd h1 h2 hsub)

/-- Witness for C1 (amended): with a second section present, the overlapping
pair inside `dAuto` is reported. -/
theorem C1_witness :
    (check_conflito [dAuto, dTarde]).1 = true :=
  (C1_check_conflito_amended [dAuto, dTarde]).2.2 (by decide) dAuto (by decide)
    ⟨"seg", 480, 600⟩ ⟨"seg", 540, 660⟩ (List.Sublist.refl _) (by decide)

-- ------------------------------------------------------------------
-- C5: the score is the sum of the three documented terms
-- ------------------------------------------------------------------

theorem sum_toFinset_list {α : Type} [DecidableEq α] (l : List α) (f : α → Nat) :
    l.toFinset.sum f = (l.dedup.map f).sum := by
  rw [Finset.sum_eq_multiset_sum, List.toFinset_val, Multiset.map_coe, Multiset.sum_coe]

/-- C5.  `score_combo` equals: the number of sections whose derived shift set
meets `turnos_pref` (0 when the preference list is empty), plus 2 when the day
target is one of 2/3/4 and the combination's distinct-day count matches it
exactly, plus the sum over `(CURSO, DISCIPLINA)` groups with more than one
distinct class label of (label count - 1). -/
theorem C5_score_decomposition (ds : List Disciplina) (pref : List Turno)
    (alvo : Option Nat) :
    score_combo ds pref alvo =
      ds.countP (fun d => decide (∃ t ∈ d.horarios.map get_turno, t ∈ pref))
      + (if (alvo = some 2 ∨ alvo = some 3 ∨ alvo = some 4) ∧
            alvo = some (dias_totais_da_grade ds) then 2 else 0)
      + (∑ k ∈ (ds.map (fun d => (d.curso, d.disciplina))).toFinset,
          (if 1 < ((ds.filter (fun d => decide ((d.curso, d.disciplina) = k))).map
                (fun d => d.turma)).toFinset.card
           then ((ds.filter (fun d => decide ((d.curso, d.disciplina) = k))).map
                (fun d => d.turma)).toFinset.card - 1
           else 0)) := by
  have e1 : (if pref.isEmpty then 0
      else (ds.filter (fun d =>
        (d.horarios.map get_turno).any (fun t => decide (t ∈ pref)))).length)
      = ds.countP (fun d => decide (∃ t ∈ d.horarios.map get_turno, t ∈ pref)) := by
    cases pref with
    | nil => simp
    | cons a l =>
      rw [List.isEmpty_cons]
      simp only [if_neg (by simp : ¬(false = true))]
      rw [← List.countP_eq_length_filter]
      apply List.countP_congr
      intro d _
      simp [List.any_eq_true]
  have halvo : alvoIn234 alvo = true ↔
      (alvo = some 2 ∨ alvo = some 3 ∨ alvo = some 4) := by
    simp [alvoIn234, or_assoc]
  have e2 : (if alvoIn234 alvo = true ∧ alvo = some (dias_totais_da_grade ds)
      then 2 else 0)
      = (if (alvo = some 2 ∨ alvo = some 3 ∨ alvo = some 4) ∧
          alvo = some (dias_totais_da_grade ds) then (2 : Nat) else 0) :=
    if_congr (and_congr halvo Iff.rfl) rfl rfl
  have e3 : extras_mesma_disciplina ds
      = ∑ k ∈ (ds.map (fun d => (d.curso, d.disciplina))).toFinset,
          (if 1 < ((ds.filter (fun d => decide ((d.curso, d.disciplina) = k))).map
                (fun d => d.turma)).toFinset.card
           then ((ds.filter (fun d => decide ((d.curso, d.disciplina) = k))).map
                (fun d => d.turma)).toFinset.card - 1
           else 0) := by
    rw [sum_toFinset_list]
    unfold extras_mesma_disciplina
    refine congrArg List.sum (List.map_congr_left ?_)
    intro k hk
    simp [List.card_toFinset]
  unfold score_combo
  rw [e1, e2, e3]

-- ------------------------------------------------------------------
-- C2: the scenario list
-- ------------------------------------------------------------------

theorem foldl_union_filter (a b c : Finset String) :
    (([a, b, c].filter (fun s => decide (s ≠ ∅))).foldl (fun x y => x ∪ y) ∅)
      = a ∪ b ∪ c := by
  by_cases ha : a = ∅ <;> by_cases hb : b = ∅ <;> by_cases hc : c = ∅ <;>
    simp [List.filter_cons, ha, hb, hc, Finset.union_assoc]

/-- C2.  The scenario list: exactly one empty-required scenario when nothing
is mandatory; with AND semantics exactly one scenario whose required set is
the union of all (non-empty) group buckets plus the singles bucket if
requested; with OR semantics one scenario per non-empty group bucket (each
plus singles if requested), or — when every group bucket is empty — a single
scenario holding the singles if requested and the empty set otherwise. -/
theorem C2_cenarios (mapa : List (String × Rotulo)) (cb so : Bool) :
    (mapa = [] → cenarios mapa cb so = [∅]) ∧
    (mapa ≠ [] → cb = true →
      cenarios mapa cb so =
        [(buckets mapa).a ∪ (buckets mapa).b ∪ (buckets mapa).c ∪
          (if so then (buckets mapa).singles else ∅)]) ∧
    (mapa ≠ [] → cb = false →
      (([(buckets mapa).a, (buckets mapa).b, (buckets mapa).c].filter
          (fun s => decide (s ≠ ∅))) ≠ [] →
        cenarios mapa cb so =
          ([(buckets mapa).a, (buckets mapa).b, (buckets mapa).c].filter
            (fun s => decide (s ≠ ∅))).map
            (fun g => g ∪ (if so then (buckets mapa).singles else ∅))) ∧
      (([(buckets mapa).a, (buckets mapa).b, (buckets mapa).c].filter
          (fun s => decide (s ≠ ∅))) = [] →
        cenarios mapa cb so = [if so then (buckets mapa).singles else ∅])) := by
  refine ⟨?_, ?_, ?_⟩
  · intro h
    simp [cenarios, h]
  · intro h hcb
    subst hcb
    simp only [cenarios]
    rw [if_pos h]
    rw [if_pos trivial, foldl_union_filter]
    cases so <;> simp [Finset.union_assoc]
  · intro h hcb
    subst hcb
    simp only [cenarios]
    rw [if_pos h]
    rw [if_neg (by simp : ¬(false = true))]
    constructor
    · intro hne
      rw [if_pos hne]
      cases so <;> simp
    · intro he
      rw [if_neg (by rw [he]; simp)]

/-- Witness for C2 at a concrete assignment (one row in group A, one single),
AND semantics with mandatory singles. -/
theorem C2_witness :
    cenarios [("x", Rotulo.grupoA), ("y", Rotulo.semGrupo)] true true =
      [(buckets [("x", Rotulo.grupoA), ("y", Rotulo.semGrupo)]).a ∪
        (buckets [("x", Rotulo.grupoA), ("y", Rotulo.semGrupo)]).b ∪
        (buckets [("x", Rotulo.grupoA), ("y", Rotulo.semGrupo)]).c ∪
        (if true then (buckets [("x", Rotulo.grupoA), ("y", Rotulo.semGrupo)]).singles
         else ∅)] :=
  (C2_cenarios [("x", Rotulo.grupoA), ("y", Rotulo.semGrupo)] true true).2.1
    (by decide) rfl

-- ------------------------------------------------------------------
-- C9: every generated candidate contains the scenario's mandatory rows
-- ------------------------------------------------------------------

theorem mem_combos_para_k (obrig resto : List Nat) (k : Nat) (c : List Nat)
    (hc : c ∈ combos_para_k obrig resto k) : ∀ i ∈ obrig, i ∈ c := by
  unfold combos_para_k at hc
  split at hc
  · exact absurd hc (by simp)
  · split at hc
    · intro i hi
      rw [List.mem_singleton.mp hc]
      exact hi
    · rcases List.mem_map.mp hc with ⟨extra, _, heq⟩
      intro i hi
      rw [← heq]
      exact List.mem_append_left extra hi

/-- C9.  Every candidate the enumerator generates for a scenario — and hence
every combination in the scenario's result list — contains all of the
scenario's mandatory row indices, and at size `k = |required|` the only
candidate generated is the mandatory set itself. -/
theorem C9_obrigatorias_superset :
    (∀ (pool : List Disciplina) (oi : Finset Nat) (alvo : Nat) (c : List Nat),
      c ∈ todas_combos pool oi alvo → ∀ i ∈ obrig_list pool oi, i ∈ c) ∧
    (∀ (pool : List Disciplina) (oi : Finset Nat),
      combos_para_k (obrig_list pool oi) (resto_list pool oi)
        (obrig_list pool oi).length = [obrig_list pool oi]) ∧
    (∀ (cap : Nat) (pool : List Disciplina) (oi : Finset Nat) (alvo : Nat)
      (alvoD : Option Nat) (pref : List Turno) (c : List Nat),
      c ∈ (cenario_sorted cap pool oi alvo alvoD pref).validas →
      ∀ i ∈ obrig_list pool oi, i ∈ c) := by
  have core : ∀ (pool : List Disciplina) (oi : Finset Nat) (alvo : Nat) (c : List Nat),
      c ∈ todas_combos pool oi alvo → ∀ i ∈ obrig_list pool oi, i ∈ c := by
    intro pool oi alvo c hc
    rcases List.mem_flatMap.mp hc with ⟨k, _, hk⟩
    exact mem_combos_para_k _ _ k c hk
  refine ⟨core, ?_, ?_⟩
  · intro pool oi
    unfold combos_para_k
    rw [if_neg (Nat.lt_irrefl _), if_pos rfl]
  · intro cap pool oi alvo alvoD pref c hc
    exact core pool oi alvo c (validas_por_cenario_mem cap pool oi alvo alvoD pref c hc)

/-- Witness for C9 at a two-section pool with row 0 mandatory. -/
theorem C9_witness :
    (0 ∈ ([0, 1] : List Nat)) ∧
    combos_para_k (obrig_list [dManha, dTarde] {0}) (resto_list [dManha, dTarde] {0})
      (obrig_list [dManha, dTarde] {0}).length = [obrig_list [dManha, dTarde] {0}] ∧
    (0 ∈ ([0, 1] : List Nat)) :=
  ⟨C9_obrigatorias_superset.1 [dManha, dTarde] {0} 2 [0, 1] (by decide) 0 (by decide),
   C9_obrigatorias_superset.2.1 [dManha, dTarde] {0},
   C9_obrigatorias_superset.2.2 MAX_COMBINACOES [dManha, dTarde] {0} 2 none [] [0, 1]
     (by decide) 0 (by decide)⟩

-- ------------------------------------------------------------------
-- C8: there is no input validation
-- ------------------------------------------------------------------

/-- C8 counterexample.  A `target_size` of 3 over a pool of 1 section is
invalid input per the claim; the code performs no validation and silently
returns a normal, empty scenario result instead of failing fast. -/
theorem C8_counterexample :
    gerar [dManha] [] false false 3 none [] = [⟨[], 0⟩] := by decide

theorem cenario_vazio_se_alvo_grande (cap : Nat) (pool : List Disciplina)
    (oi : Finset Nat) (alvo : Nat) (alvoD : Option Nat) (pref : List Turno)
    (h : pool.length < alvo) :
    cenario_sorted cap pool oi alvo alvoD pref = ⟨[], 0⟩ := by
  have hob : (obrig_list pool oi).length ≤ pool.length := by
    unfold obrig_list
    exact (List.length_filter_le _ _).trans (by simp)
  have hsum : (obrig_list pool oi).length + (resto_list pool oi).length
      = pool.length := by
    unfold obrig_list resto_list
    rw [← List.countP_eq_length_filter, ← List.countP_eq_length_filter]
    have htot := List.length_eq_countP_add_countP
      (p := fun i => decide (i ∈ oi)) (List.range pool.length)
    rw [List.length_range] at htot
    have hc : List.countP (fun i => decide (i ∉ oi)) (List.range pool.length)
        = List.countP (fun a => ¬(fun i => decide (i ∈ oi)) a) (List.range pool.length) :=
      List.countP_congr (by intro x _; simp)
    rw [hc]
    exact htot.symm
  have hguard : ¬(0 < alvo ∧ alvo < (obrig_list pool oi).length) := by
    rintro ⟨-, hlt⟩
    omega
  have htc : todas_combos pool oi alvo = [] := by
    unfold todas_combos tamanhos
    rw [if_neg (by omega : ¬(alvo = 0))]
    have hcpk : combos_para_k (obrig_list pool oi) (resto_list pool oi) alvo = [] := by
      unfold combos_para_k
      rw [if_neg (by omega), if_neg (by omega)]
      rw [combs_eq_nil _ _ (by omega)]
      rfl
    simp [hcpk]
  simp only [cenario_sorted, gerar_cenario]
  rw [if_neg hguard, htc]
  rfl

/-- C8 (amended).  The engine performs no input validation: a `target_size`
exceeding the pool size is not rejected — every scenario silently produces an
empty result with zero generated combinations.  (A negative `target_size`
cannot reach the engine: the UI widget's lower bound is 0.  Malformed sections
with `start >= end` are processed like any others.) -/
theorem C8_sem_validacao (pool : List Disciplina) (mapa : List (String × Rotulo))
    (cb so : Bool) (alvo : Nat) (alvoD : Option Nat) (pref : List Turno)
    (h : pool.length < alvo) :
    gerar pool mapa cb so alvo alvoD pref =
      (cenarios mapa cb so).map (fun _ => ⟨[], 0⟩) := by
  unfold gerar
  apply List.map_congr_left
  intro rids _
  exact cenario_vazio_se_alvo_grande MAX_COMBINACOES pool _ alvo alvoD pref h

/-- Witness for C8 (amended) at the concrete invalid input of the
counterexample. -/
theorem C8_witness :
    gerar [dManha] [] false false 3 none [] =
      (cenarios [] false false).map (fun _ => ⟨[], 0⟩) :=
  C8_sem_validacao [dManha] [] false false 3 none [] (by decide)

-- ------------------------------------------------------------------
-- C7: the per-scenario safety cap
-- ------------------------------------------------------------------

theorem gerar_cenario_geradas_le (cap : Nat) (pool : List Disciplina)
    (oi : Finset Nat) (alvo : Nat) (alvoD : Option Nat) (hcap : 0 < cap) :
    (gerar_cenario cap pool oi alvo alvoD).geradas ≤ cap := by
  unfold gerar_cenario
  split
  · exact Nat.zero_le cap
  · exact gera_loop_geradas_le cap _ _ 0 [] hcap

/-- C7 (supporting theorem for the code_bug finding).  What the code does do:
the counter is per scenario, never exceeds `MAX_COMBINACOES`, and the
(possibly truncated) result list is fully validated and ranked.  What the code
does not do — the buggy part — is surface any truncation flag: a
`CenarioResultado` carries only the ranked list and the counter, and the
rendered caption mentions the limit whether or not it was hit. -/
theorem C7_cap_por_cenario :
    ∀ (pool : List Disciplina) (mapa : List (String × Rotulo)) (cb so : Bool)
      (alvo : Nat) (alvoD : Option Nat) (pref : List Turno) (r : CenarioResultado),
      r ∈ gerar pool mapa cb so alvo alvoD pref →
      r.geradas ≤ MAX_COMBINACOES ∧
      (∀ c ∈ r.validas, combo_ok alvoD (combo_secs pool c) = true) ∧
      r.validas.Pairwise (fun x y =>
        score_key pool pref alvoD y ≤ score_key pool pref alvoD x) := by
  intro pool mapa cb so alvo alvoD pref r hr
  rcases List.mem_map.mp hr with ⟨rids, _, heq⟩
  subst heq
  refine ⟨?_, ?_, ?_⟩
  · exact gerar_cenario_geradas_le MAX_COMBINACOES pool _ alvo alvoD (by decide)
  · intro c hc
    exact validas_por_cenario_ok MAX_COMBINACOES pool _ alvo alvoD pref c hc
  · exact sortDesc_pairwise _ _

/-- Witness for C7's supporting theorem at a concrete scenario. -/
theorem C7_witness :
    (cenario_sorted MAX_COMBINACOES [dManha, dTarde]
        (obrig_idx_of [dManha, dTarde] ∅) 2 none []).geradas ≤ MAX_COMBINACOES ∧
    combo_ok none (combo_secs [dManha, dTarde] [0, 1]) = true :=
  ⟨(C7_cap_por_cenario [dManha, dTarde] [] false false 2 none []
      (cenario_sorted MAX_COMBINACOES [dManha, dTarde]
        (obrig_idx_of [dManha, dTarde] ∅) 2 none []) (by decide)).1,
   (C7_cap_por_cenario [dManha, dTarde] [] false false 2 none []
      (cenario_sorted MAX_COMBINACOES [dManha, dTarde]
        (obrig_idx_of [dManha, dTarde] ∅) 2 none []) (by decide)).2.1 [0, 1]
      (by decide)⟩

-- ------------------------------------------------------------------
-- C6: ranking is score-descending, stable, and deterministic
-- ------------------------------------------------------------------

/-- C6.  Each scenario's result list is the valid list sorted descending by
score; it is a permutation of the generation-order list; equal-score
candidates keep their generation order (first-generated wins, so the order is
total and reproducible); and running `gerar` twice on identical inputs yields
identical outputs. -/
theorem C6_ordenacao_deterministica :
    (∀ (cap : Nat) (pool : List Disciplina) (oi : Finset Nat) (alvo : Nat)
      (alvoD : Option Nat) (pref : List Turno),
      ((cenario_sorted cap pool oi alvo alvoD pref).validas.Pairwise (fun x y =>
        score_key pool pref alvoD y ≤ score_key pool pref alvoD x)) ∧
      (cenario_sorted cap pool oi alvo alvoD pref).validas.Perm
        (gerar_cenario cap pool oi alvo alvoD).validas ∧
      (∀ s : Nat,
        (cenario_sorted cap pool oi alvo alvoD pref).validas.filter
          (fun c => decide (score_key pool pref alvoD c = s)) =
        (gerar_cenario cap pool oi alvo alvoD).validas.filter
          (fun c => decide (score_key pool pref alvoD c = s)))) ∧
    (∀ (p1 p2 : List Disciplina) (m1 m2 : List (String × Rotulo)) (c1 c2 s1 s2 : Bool)
      (a1 a2 : Nat) (d1 d2 : Option Nat) (t1 t2 : List Turno),
      p1 = p2 → m1 = m2 → c1 = c2 → s1 = s2 → a1 = a2 → d1 = d2 → t1 = t2 →
      gerar p1 m1 c1 s1 a1 d1 t1 = gerar p2 m2 c2 s2 a2 d2 t2) := by
  constructor
  · intro cap pool oi alvo alvoD pref
    refine ⟨sortDesc_pairwise _ _, sortDesc_perm _ _, fun s => sortDesc_filter _ s _⟩
  · intro p1 p2 m1 m2 c1 c2 s1 s2 a1 a2 d1 d2 t1 t2 h1 h2 h3 h4 h5 h6 h7
    subst h1; subst h2; subst h3; subst h4; subst h5; subst h6; subst h7
    rfl

/-- Witness for C6: determinism at a concrete invocation. -/
theorem C6_witness :
    gerar [dManha, dTarde] [] false false 0 none [Turno.Tarde] =
      gerar [dManha, dTarde] [] false false 0 none [Turno.Tarde] :=
  C6_ordenacao_deterministica.2 [dManha, dTarde] [dManha, dTarde] [] [] false false
    false false 0 0 none none [Turno.Tarde] [Turno.Tarde] rfl rfl rfl rfl rfl rfl rfl
